import Mathlib

/-!
# Verification of the Tile lifecycle manager (`src/source/tile.js`)

Shallow embedding of the `Tile` class of `src/source/tile.js` and proofs about
its lifecycle predicates, data ingestion/unload, GPU-resource upload, cache
expiry policy, and mask tessellation.

Modelling conventions:
* JavaScript `null`/`undefined` fields become `Option` values; JS truthiness of
  a numeric field is `v ≠ 0` on the wrapped value.
* Timestamps and durations are `Int` milliseconds; `Date.now()` becomes an
  explicit `now` argument.
* Side effects on external resources (bucket teardown, texture and buffer
  creation/destruction) are made observable as an explicit effect list
  returned alongside the updated tile.
* Opaque external payloads (images, serialized feature indexes, decoded
  vector-tile features) are represented by `Nat` tokens.
* Fields of the source class that no verified code path reads or writes
  (`coord.id`, `uid`, `uses`, `tileSize`, `sourceMaxZoom`, `timeAdded`,
  `fadeEndTime`, placement and request bookkeeping) are omitted from the
  record; the tile coordinate components that `querySourceFeatures` reads are
  kept as `coordZ`/`coordX`/`coordY`.
-/

namespace TileSpec

/-- The six lifecycle states of a tile (`TileState` in the source). -/
inductive TileState where
  | loading
  | loaded
  | reloading
  | unloaded
  | errored
  | expired
deriving DecidableEq, Repr

/-- A render bucket; the only field the verified code paths touch is the
`uploaded` flag read and set by `Tile.upload`. The payload token stands for
the bucket's render data. -/
structure Bucket where
  uploaded : Bool
  payload : Nat
deriving DecidableEq, Repr

/-- Which atlas texture an effect refers to. -/
inductive TexKind where
  | icon
  | glyph
deriving DecidableEq, Repr

/-- Observable side effects on external (GPU/CPU) resources. -/
inductive Effect where
  | destroyBucket (id : String)
  | destroyTexture (k : TexKind)
  | uploadBucket (id : String)
  | createTexture (k : TexKind)
  | destroySegments
  | destroyBoundsBuffer
  | destroyIndexBuffer
  | allocBoundsBuffer
  | allocIndexBuffer
deriving DecidableEq, Repr

/-- A vertex of the raster-bounds array: position `(x, y)` followed by the
texture coordinate pair `(tx, ty)` (`emplaceBack(x, y, tx, ty)`). -/
abbrev MaskVtx := Nat × Nat × Nat × Nat

/-- A triangle of the index array: three vertex indices. -/
abbrev Tri := Nat × Nat × Nat

/-- A draw segment, as used by the segment allocator: offsets into the shared
vertex/index arrays plus vertex and primitive counters. -/
structure Segment where
  vertexOffset : Nat
  primitiveOffset : Nat
  vertexLength : Nat
  primitiveLength : Nat
deriving DecidableEq, Repr

/-- Decoded vector-tile layers: layer name to its list of feature tokens. -/
abbrev VTLayers := List (String × List Nat)

/-- A GeoJSON-like feature record appended by `querySourceFeatures`: the
decoded feature token annotated with the tile's (z, x, y). -/
structure GeoJSONFeature where
  feature : Nat
  z : Nat
  x : Nat
  y : Nat
deriving DecidableEq, Repr

/-- The mutable runtime record of the `Tile` class. -/
structure Tile where
  state : TileState
  buckets : List (String × Bucket)
  iconAtlasImage : Option Nat
  iconAtlasTexture : Option Nat
  glyphAtlasImage : Option Nat
  glyphAtlasTexture : Option Nat
  expirationTime : Option Int
  expiredRequestCount : Nat
  rawTileData : Option VTLayers
  vtLayers : Option VTLayers
  collisionBoxArray : Option (List Nat)
  featureIndex : Option Nat
  mask : Option (List Nat)
  maskedBoundsBuffer : Option (List MaskVtx)
  maskedIndexBuffer : Option (List Tri)
  segments : Option Segment
  coordZ : Nat
  coordX : Nat
  coordY : Nat
deriving DecidableEq, Repr

/-- `wasRequested()`:
`state === 'errored' || state === 'loaded' || state === 'reloading'`. -/
def wasRequested (t : Tile) : Bool :=
  t.state = TileState.errored || t.state = TileState.loaded ||
    t.state = TileState.reloading

/-- `hasData()`:
`state === 'loaded' || state === 'reloading' || state === 'expired'`. -/
def hasData (t : Tile) : Bool :=
  t.state = TileState.loaded || t.state = TileState.reloading ||
    t.state = TileState.expired

/-- C1: `hasData()` is true exactly on states loaded, reloading, expired;
`wasRequested()` is true exactly on states errored, loaded, reloading; in
particular `wasRequested()` is false in state expired. -/
theorem hasData_wasRequested_characterization (t : Tile) :
    (hasData t = true ↔
      (t.state = TileState.loaded ∨ t.state = TileState.reloading ∨
        t.state = TileState.expired)) ∧
    (wasRequested t = true ↔
      (t.state = TileState.errored ∨ t.state = TileState.loaded ∨
        t.state = TileState.reloading)) ∧
    (t.state = TileState.expired → wasRequested t = false) := by
  obtain ⟨s, _⟩ := t
  cases s <;> simp [hasData, wasRequested]

/-- A freshly constructed tile (the `Tile` constructor: empty buckets, no
expiration metadata, state `loading`; every optional resource absent). -/
def baseTile : Tile :=
  { state := TileState.loading
    buckets := []
    iconAtlasImage := none
    iconAtlasTexture := none
    glyphAtlasImage := none
    glyphAtlasTexture := none
    expirationTime := none
    expiredRequestCount := 0
    rawTileData := none
    vtLayers := none
    collisionBoxArray := none
    featureIndex := none
    mask := none
    maskedBoundsBuffer := none
    maskedIndexBuffer := none
    segments := none
    coordZ := 0
    coordX := 0
    coordY := 0 }

/-- Witness for C1 at a concrete tile in state `expired`. -/
def tileExpiredEx : Tile :=
  { baseTile with state := TileState.expired }

/-- C1 witness: the characterization instantiated at a concrete expired tile,
whose state satisfies the third conjunct's hypothesis. -/
theorem hasData_wasRequested_characterization_witness :
    hasData tileExpiredEx = true ∧ wasRequested tileExpiredEx = false := by
  refine ⟨?_, ?_⟩
  · exact (hasData_wasRequested_characterization tileExpiredEx).1.mpr
      (Or.inr (Or.inr (by rfl)))
  · exact (hasData_wasRequested_characterization tileExpiredEx).2.2 (by rfl)

/-- `unloadVectorData()`: destroy every bucket, empty the bucket map, destroy
the icon/glyph atlas textures when present (without clearing the texture
fields — the source never nulls them), clear `collisionBoxArray` and
`featureIndex`, and transition to `unloaded`. Returns the updated tile and
the list of release effects performed. -/
def unloadVectorData (t : Tile) : Tile × List Effect :=
  let bucketFx := t.buckets.map (fun p => Effect.destroyBucket p.1)
  let iconFx :=
    if t.iconAtlasTexture.isSome then [Effect.destroyTexture TexKind.icon]
    else []
  let glyphFx :=
    if t.glyphAtlasTexture.isSome then [Effect.destroyTexture TexKind.glyph]
    else []
  ({ t with
      buckets := []
      collisionBoxArray := none
      featureIndex := none
      state := TileState.unloaded },
   bucketFx ++ iconFx ++ glyphFx)

/-- The inbound ingestion payload (`WorkerTileResult`): only the fields
`loadVectorData` reads. `collisionBoxArray` is the serialized transfer form
(`new CollisionBoxArray(data.collisionBoxArray)` wraps it, an absent value
yielding an empty array); `featureIndex` and `buckets` deserialize through
external deserializers, modelled as the already-deserialized values. -/
structure WorkerTileResult where
  rawTileData : Option VTLayers
  collisionBoxArray : Option (List Nat)
  featureIndex : Nat
  buckets : List (String × Bucket)
  iconAtlasImage : Option Nat
  glyphAtlasImage : Option Nat

/-- `loadVectorData(data, painter)`: if the tile has data, unload it first;
set state `loaded`; for a null payload install only a fresh empty
collision-box array; otherwise install the payload's raw bytes (when
present), collision boxes, feature index, buckets and pending atlas images.
(The source assigns the two atlas images twice with identical conditions —
the duplicate is a no-op.) -/
def loadVectorData (data : Option WorkerTileResult) (t : Tile) :
    Tile × List Effect :=
  let step := if hasData t then unloadVectorData t else (t, [])
  let t1 := { step.1 with state := TileState.loaded }
  match data with
  | none => ({ t1 with collisionBoxArray := some [] }, step.2)
  | some d =>
    let t2 :=
      match d.rawTileData with
      | some raw => { t1 with rawTileData := some raw }
      | none => t1
    ({ t2 with
        collisionBoxArray := some (d.collisionBoxArray.getD [])
        featureIndex := some d.featureIndex
        buckets := d.buckets
        iconAtlasImage :=
          match d.iconAtlasImage with
          | some img => some img
          | none => t2.iconAtlasImage
        glyphAtlasImage :=
          match d.glyphAtlasImage with
          | some img => some img
          | none => t2.glyphAtlasImage },
     step.2)

/-- The bucket loop of `upload(gl)`, effect part: an `uploadBucket` effect for
each bucket whose `uploaded` flag is unset (`if (!bucket.uploaded) bucket.upload(gl)`). -/
def bucketUploadFx (l : List (String × Bucket)) : List Effect :=
  l.filterMap (fun p =>
    if p.2.uploaded then none else some (Effect.uploadBucket p.1))

/-- The bucket loop of `upload(gl)`, state part: set the `uploaded` flag of
each bucket that was not yet uploaded. -/
def markUploaded (l : List (String × Bucket)) : List (String × Bucket) :=
  l.map (fun p =>
    if p.2.uploaded then p else (p.1, { p.2 with uploaded := true }))

/-- `upload(gl)`: upload every bucket whose `uploaded` flag is unset and set
the flag; turn a pending icon/glyph atlas image into an owned texture and
clear the image field. Returns the updated tile and the upload/creation
effects performed. -/
def upload (t : Tile) : Tile × List Effect :=
  let bucketFx := bucketUploadFx t.buckets
  let buckets := markUploaded t.buckets
  let iconStep :=
    match t.iconAtlasImage with
    | some img =>
      ((some img, (none : Option Nat)), [Effect.createTexture TexKind.icon])
    | none => ((t.iconAtlasTexture, t.iconAtlasImage), [])
  let glyphStep :=
    match t.glyphAtlasImage with
    | some img =>
      ((some img, (none : Option Nat)), [Effect.createTexture TexKind.glyph])
    | none => ((t.glyphAtlasTexture, t.glyphAtlasImage), [])
  ({ t with
      buckets := buckets
      iconAtlasTexture := iconStep.1.1
      iconAtlasImage := iconStep.1.2
      glyphAtlasTexture := glyphStep.1.1
      glyphAtlasImage := glyphStep.1.2 },
   bucketFx ++ iconStep.2 ++ glyphStep.2)

/-- C2: ingesting a null payload always ends in state `loaded` with empty
buckets and a present (empty) collision-box array, and when the tile held
data it is released first (the call's effects are exactly the unload's
release effects). The hypothesis is the spec's data-model invariant: a tile
without data has empty buckets. -/
theorem loadVectorData_null (t : Tile)
    (hinv : hasData t = false → t.buckets = []) :
    (loadVectorData none t).1.state = TileState.loaded ∧
    (loadVectorData none t).1.buckets = [] ∧
    (loadVectorData none t).1.collisionBoxArray = some [] ∧
    (hasData t = true → (loadVectorData none t).2 = (unloadVectorData t).2) := by
  by_cases h : hasData t = true
  · simp [loadVectorData, h, unloadVectorData]
  · have hb := hinv (by simpa using h)
    simp [loadVectorData, h, hb]

/-- A loaded tile holding data of every kind, used as concrete input. -/
def tileLoadedEx : Tile :=
  { baseTile with
    state := TileState.loaded
    buckets := [("water", { uploaded := true, payload := 5 })]
    iconAtlasTexture := some 7
    glyphAtlasTexture := some 8
    rawTileData := some [("roads", [1, 2])]
    collisionBoxArray := some [3]
    featureIndex := some 1 }

/-- C2 witness: ingesting null data into a concrete loaded tile that holds
buckets, textures and a feature index. -/
theorem loadVectorData_null_witness :
    (loadVectorData none tileLoadedEx).1.state = TileState.loaded ∧
    (loadVectorData none tileLoadedEx).1.buckets = [] ∧
    (loadVectorData none tileLoadedEx).1.collisionBoxArray = some [] ∧
    (loadVectorData none tileLoadedEx).2 = (unloadVectorData tileLoadedEx).2 := by
  have h := loadVectorData_null tileLoadedEx (by decide)
  exact ⟨h.1, h.2.1, h.2.2.1, h.2.2.2 (by decide)⟩

/-- C3 counterexample: on a tile holding atlas textures, the second of two
consecutive `unloadVectorData` calls is not free of releases — it destroys
both atlas textures again (the texture fields are never cleared), releasing
resources the first call already released. -/
theorem unload_twice_not_release_free :
    (unloadVectorData (unloadVectorData tileLoadedEx).1).2 =
      [Effect.destroyTexture TexKind.icon,
        Effect.destroyTexture TexKind.glyph] ∧
    (unloadVectorData tileLoadedEx).2 =
      [Effect.destroyBucket "water", Effect.destroyTexture TexKind.icon,
        Effect.destroyTexture TexKind.glyph] := by decide

/-- C3 amended: the second of two consecutive `unloadVectorData` calls leaves
every field exactly as the first call left it (state `unloaded`, buckets
empty, collision boxes and feature index absent) and releases no bucket; its
only releases are a re-destroy of each atlas texture still referenced —
when no atlas texture was allocated it is fully side-effect-free. -/
theorem unload_unload_amended (t : Tile) :
    (unloadVectorData (unloadVectorData t).1).1 = (unloadVectorData t).1 ∧
    (unloadVectorData t).1.state = TileState.unloaded ∧
    (unloadVectorData t).1.buckets = [] ∧
    (unloadVectorData t).1.collisionBoxArray = none ∧
    (unloadVectorData t).1.featureIndex = none ∧
    (∀ id, Effect.destroyBucket id ∉ (unloadVectorData (unloadVectorData t).1).2) ∧
    (t.iconAtlasTexture = none → t.glyphAtlasTexture = none →
      (unloadVectorData (unloadVectorData t).1).2 = []) := by
  refine ⟨rfl, rfl, rfl, rfl, rfl, ?_, ?_⟩
  · intro id
    simp only [unloadVectorData, List.map_nil, List.nil_append]
    split_ifs <;> simp
  · intro hi hg
    simp [unloadVectorData, hi, hg]

/-- C3 amended witness: double unload of a concrete tile without atlas
textures is fully side-effect-free the second time. -/
theorem unload_unload_amended_witness :
    (unloadVectorData (unloadVectorData tileExpiredEx).1).1 =
      (unloadVectorData tileExpiredEx).1 ∧
    Effect.destroyBucket "water" ∉
      (unloadVectorData (unloadVectorData tileExpiredEx).1).2 ∧
    (unloadVectorData (unloadVectorData tileExpiredEx).1).2 = [] := by
  have h := unload_unload_amended tileExpiredEx
  exact ⟨h.1, h.2.2.2.2.2.1 "water", h.2.2.2.2.2.2 rfl rfl⟩

theorem bucketUploadFx_skip {l : List (String × Bucket)}
    (hkeys : (l.map Prod.fst).Nodup) {id : String} {b : Bucket}
    (hmem : (id, b) ∈ l) (hup : b.uploaded = true) :
    Effect.uploadBucket id ∉ bucketUploadFx l := by
  intro hcon
  unfold bucketUploadFx at hcon
  rcases List.mem_filterMap.mp hcon with ⟨p, hp, hfp⟩
  by_cases hpu : p.2.uploaded = true
  · simp [hpu] at hfp
  · simp [hpu] at hfp
    have hpe : p = (id, b) :=
      List.inj_on_of_nodup_map hkeys hp hmem (by simpa using hfp)
    rw [hpe] at hpu
    exact hpu hup

theorem bucketUploadFx_mem {l : List (String × Bucket)} {id : String}
    {b : Bucket} (hmem : (id, b) ∈ l) (hup : b.uploaded = false) :
    Effect.uploadBucket id ∈ bucketUploadFx l :=
  List.mem_filterMap.mpr ⟨(id, b), hmem, by simp [hup]⟩

theorem markUploaded_all (l : List (String × Bucket)) :
    ∀ p ∈ markUploaded l, p.2.uploaded = true := by
  intro p hp
  rcases List.mem_map.mp hp with ⟨q, hq, rfl⟩
  by_cases h : q.2.uploaded = true <;> simp [h]

theorem bucketUploadFx_eq_nil {l : List (String × Bucket)}
    (h : ∀ p ∈ l, p.2.uploaded = true) : bucketUploadFx l = [] := by
  refine List.filterMap_eq_nil_iff.mpr (fun p hp => ?_)
  simp [h p hp]

theorem upload_fx_eq (t : Tile) :
    (upload t).2 = bucketUploadFx t.buckets ++
      (if t.iconAtlasImage.isSome then [Effect.createTexture TexKind.icon]
        else []) ++
      (if t.glyphAtlasImage.isSome then [Effect.createTexture TexKind.glyph]
        else []) := by
  obtain ⟨st, bks, ii, it, gi, gt, e, c, rtd, vtl, cba, fi, m, mbb, mib, sg,
    cz, cx, cy⟩ := t
  rcases ii with _ | img <;> rcases gi with _ | gimg <;> simp [upload]

theorem upload_buckets_eq (t : Tile) :
    (upload t).1.buckets = markUploaded t.buckets := by
  obtain ⟨st, bks, ii, it, gi, gt, e, c, rtd, vtl, cba, fi, m, mbb, mib, sg,
    cz, cx, cy⟩ := t
  rcases ii with _ | img <;> rcases gi with _ | gimg <;> simp [upload]

theorem upload_iconImage_none (t : Tile) :
    (upload t).1.iconAtlasImage = none := by
  obtain ⟨st, bks, ii, it, gi, gt, e, c, rtd, vtl, cba, fi, m, mbb, mib, sg,
    cz, cx, cy⟩ := t
  rcases ii with _ | img <;> rcases gi with _ | gimg <;> simp [upload]

theorem upload_glyphImage_none (t : Tile) :
    (upload t).1.glyphAtlasImage = none := by
  obtain ⟨st, bks, ii, it, gi, gt, e, c, rtd, vtl, cba, fi, m, mbb, mib, sg,
    cz, cx, cy⟩ := t
  rcases ii with _ | img <;> rcases gi with _ | gimg <;> simp [upload]

theorem createTexture_not_mem_bucketUploadFx (l : List (String × Bucket))
    (k : TexKind) : Effect.createTexture k ∉ bucketUploadFx l := by
  intro hcon
  rcases List.mem_filterMap.mp hcon with ⟨p, _, hfp⟩
  by_cases hq : p.2.uploaded = true <;> simp [hq] at hfp

/-- C9: `upload` is idempotent. Buckets already flagged `uploaded` are
skipped, non-uploaded buckets are uploaded and flagged, so every bucket of
the result is flagged; each pending atlas image yields exactly one texture
creation and the image field is cleared in the same call; a second
consecutive `upload` performs no effect at all (no bucket upload, no texture
creation). The key-uniqueness hypothesis reflects that `buckets` is a JS
object keyed by layer id. -/
theorem upload_idempotent (t : Tile)
    (hkeys : (t.buckets.map Prod.fst).Nodup) :
    (∀ id b, (id, b) ∈ t.buckets → b.uploaded = true →
      Effect.uploadBucket id ∉ (upload t).2) ∧
    (∀ id b, (id, b) ∈ t.buckets → b.uploaded = false →
      Effect.uploadBucket id ∈ (upload t).2) ∧
    (∀ p ∈ (upload t).1.buckets, p.2.uploaded = true) ∧
    (upload t).1.iconAtlasImage = none ∧
    (upload t).1.glyphAtlasImage = none ∧
    (upload t).2.count (Effect.createTexture TexKind.icon) =
      (if t.iconAtlasImage.isSome then 1 else 0) ∧
    (upload t).2.count (Effect.createTexture TexKind.glyph) =
      (if t.glyphAtlasImage.isSome then 1 else 0) ∧
    (upload (upload t).1).2 = [] := by
  refine ⟨?_, ?_, ?_, upload_iconImage_none t, upload_glyphImage_none t,
    ?_, ?_, ?_⟩
  · intro id b hmem hup hcon
    rw [upload_fx_eq] at hcon
    rcases List.mem_append.mp hcon with hc | hc
    · rcases List.mem_append.mp hc with hc2 | hc2
      · exact bucketUploadFx_skip hkeys hmem hup hc2
      · split_ifs at hc2 <;> simp_all
    · split_ifs at hc <;> simp_all
  · intro id b hmem hup
    rw [upload_fx_eq]
    exact List.mem_append_left _ (List.mem_append_left _
      (bucketUploadFx_mem hmem hup))
  · rw [upload_buckets_eq]
    exact markUploaded_all t.buckets
  · rw [upload_fx_eq]
    rw [List.count_append, List.count_append,
      List.count_eq_zero_of_not_mem
        (createTexture_not_mem_bucketUploadFx t.buckets TexKind.icon)]
    split_ifs <;> simp
  · rw [upload_fx_eq]
    rw [List.count_append, List.count_append,
      List.count_eq_zero_of_not_mem
        (createTexture_not_mem_bucketUploadFx t.buckets TexKind.glyph)]
    split_ifs <;> simp
  · rw [upload_fx_eq, upload_buckets_eq, upload_iconImage_none,
      upload_glyphImage_none,
      bucketUploadFx_eq_nil (markUploaded_all t.buckets)]
    simp

/-- C9 witness: a tile with one already-uploaded and one pending bucket plus
both atlas images pending; `upload` skips the first bucket, uploads the
second, creates each texture once, and a second call is effect-free. -/
theorem upload_idempotent_witness :
    (Effect.uploadBucket "water" ∉
      (upload { tileLoadedEx with
        buckets := [("water", { uploaded := true, payload := 5 }),
          ("roads", { uploaded := false, payload := 6 })]
        iconAtlasImage := some 9
        glyphAtlasImage := some 10 }).2) ∧
    (Effect.uploadBucket "roads" ∈
      (upload { tileLoadedEx with
        buckets := [("water", { uploaded := true, payload := 5 }),
          ("roads", { uploaded := false, payload := 6 })]
        iconAtlasImage := some 9
        glyphAtlasImage := some 10 }).2) ∧
    (upload (upload { tileLoadedEx with
        buckets := [("water", { uploaded := true, payload := 5 }),
          ("roads", { uploaded := false, payload := 6 })]
        iconAtlasImage := some 9
        glyphAtlasImage := some 10 }).1).2 = [] := by
  have h := upload_idempotent
    { tileLoadedEx with
      buckets := [("water", { uploaded := true, payload := 5 }),
        ("roads", { uploaded := false, payload := 6 })]
      iconAtlasImage := some 9
      glyphAtlasImage := some 10 } (by decide)
  exact ⟨h.1 "water" { uploaded := true, payload := 5 } (by decide) rfl,
    h.2.1 "roads" { uploaded := false, payload := 6 } (by decide) rfl,
    h.2.2.2.2.2.2.2⟩

/-- `CLOCK_SKEW_RETRY_TIMEOUT = 30000` ms. -/
def CLOCK_SKEW_RETRY_TIMEOUT : Int := 30000

/-- JS truthiness of a nullable numeric field: `null`/`undefined` and `0` are
falsy. -/
def optTruthy : Option Int → Bool
  | none => false
  | some v => v ≠ 0

/-- Modelled from the spec: the parsed HTTP `Cache-Control` value consumed by
the expiry policy (`util.parseCacheControl` is outside the verified source);
only its `max-age` directive is read, in seconds. -/
structure CacheControl where
  maxAge : Option Int

/-- Cache metadata consumed by `setExpiryData`: an optional `Cache-Control`
value or an optional `Expires` timestamp (modelled from the spec as the
already-parsed HTTP date, in ms — `new Date(data.expires).getTime()` is
outside the verified source). -/
structure ExpiryData where
  cacheControl : Option CacheControl
  expires : Option Int

/-- The candidate-expiration assignment of `setExpiryData`:
`cacheControl` with a truthy `max-age` sets `expirationTime = now + maxAge*1000`,
else a present `expires` sets `expirationTime` to its parsed time. -/
def assignExpiry (now : Int) (data : ExpiryData) (t : Tile) : Tile :=
  match data.cacheControl with
  | some cc =>
    match cc.maxAge with
    | some ma =>
      if ma ≠ 0 then { t with expirationTime := some (now + ma * 1000) } else t
    | none => t
  | none =>
    match data.expires with
    | some ex => { t with expirationTime := some ex }
    | none => t

/-- The expired/interpolation decision of `setExpiryData`, run against the
prior expiration captured before the assignment. Mirrors the source's
branch structure: future expiration is fresh (counter reset); no prior, a
regressed expiration, or an unchanged expiration is expired (counter
incremented, state `expired`); otherwise the expiration is interpolated to
`now + max(delta, CLOCK_SKEW_RETRY_TIMEOUT)` and the counter reset. -/
def expiryUpdate (now : Int) (prior : Option Int) (t : Tile) : Tile :=
  if optTruthy t.expirationTime then
    let e := t.expirationTime.getD 0
    if e > now then
      { t with expiredRequestCount := 0 }
    else if ¬ optTruthy prior then
      { t with
          expiredRequestCount := t.expiredRequestCount + 1
          state := TileState.expired }
    else
      let p := prior.getD 0
      if e < p then
        { t with
            expiredRequestCount := t.expiredRequestCount + 1
            state := TileState.expired }
      else
        let delta := e - p
        if delta = 0 then
          { t with
              expiredRequestCount := t.expiredRequestCount + 1
              state := TileState.expired }
        else
          { t with
              expirationTime := some (now + max delta CLOCK_SKEW_RETRY_TIMEOUT)
              expiredRequestCount := 0 }
  else t

/-- `setExpiryData(data)`: capture the prior expiration, assign the candidate
expiration from the cache metadata, then run the expiry decision. -/
def setExpiryData (now : Int) (data : ExpiryData) (t : Tile) : Tile :=
  expiryUpdate now t.expirationTime (assignExpiry now data t)

/-- JavaScript `1 << k` for `0 ≤ k ≤ 31`: the shift is performed on 32-bit
two's-complement integers, so `1 << 31` is `-2^31`. -/
def jsShlOne (k : Nat) : Int :=
  let r : Nat := (2 ^ (k % 32)) % 2 ^ 32
  if r < 2 ^ 31 then (r : Int) else (r : Int) - 2 ^ 32

/-- `getExpiryTimeout()`: no timeout without (truthy) expiration metadata;
with a positive `expiredRequestCount`, exponential backoff
`1000 * (1 << min(count - 1, 31))` (JS 32-bit shift); otherwise the time
remaining until `expirationTime`, capped at `2^31 - 1` ms. -/
def getExpiryTimeout (now : Int) (t : Tile) : Option Int :=
  if optTruthy t.expirationTime then
    if t.expiredRequestCount ≠ 0 then
      some (1000 * jsShlOne (min (t.expiredRequestCount - 1) 31))
    else
      some (min (t.expirationTime.getD 0 - now) (2 ^ 31 - 1))
  else none

/-- C4 counterexample: prior expiration `T0 = 999`, new expiration
`T1 = 1001` from an `Expires` header, `now = 1000`: the difference
`T1 - T0 = 2` lies strictly between 0 and 30000, yet because `T1 > now` the
call keeps `expirationTime = 1001` instead of `now + 30000 = 31000` — the
claim omits the condition `T1 ≤ now`. -/
theorem setExpiryData_interpolation_counterexample :
    (0 : Int) < 1001 - 999 ∧ (1001 : Int) - 999 < 30000 ∧
    (setExpiryData 1000 { cacheControl := none, expires := some 1001 }
      { tileExpiredEx with expirationTime := some 999 }).expirationTime =
      some 1001 ∧
    (setExpiryData 1000 { cacheControl := none, expires := some 1001 }
      { tileExpiredEx with expirationTime := some 999 }).expirationTime ≠
      some 31000 := by decide

/-- C4 amended: for a tile with prior recorded expiration `T0 > 0`, when the
new computed expiration `T1` is not in the future (`T1 ≤ now`) and
`0 < T1 - T0 < 30000`, the call ends with `expirationTime = now + 30000`,
does not mark the tile expired (state unchanged), and resets
`expiredRequestCount` to 0. -/
theorem setExpiryData_interpolation (t : Tile) (T0 T1 now : Int)
    (hprior : t.expirationTime = some T0) (hpos : 0 < T0) (hle : T1 ≤ now)
    (hlo : 0 < T1 - T0) (hhi : T1 - T0 < 30000) :
    (setExpiryData now { cacheControl := none, expires := some T1 }
      t).expirationTime = some (now + 30000) ∧
    (setExpiryData now { cacheControl := none, expires := some T1 }
      t).state = t.state ∧
    (setExpiryData now { cacheControl := none, expires := some T1 }
      t).expiredRequestCount = 0 := by
  have hT1 : T1 ≠ 0 := by omega
  have hT0 : T0 ≠ 0 := by omega
  have hmax : max (T1 - T0) CLOCK_SKEW_RETRY_TIMEOUT = 30000 := by
    rw [CLOCK_SKEW_RETRY_TIMEOUT]
    omega
  simp [setExpiryData, assignExpiry, expiryUpdate, optTruthy, hprior, hT1,
    hT0, hmax, not_lt.mpr (le_of_lt (by omega : T0 < T1)),
    not_lt.mpr hle]
  split_ifs with hd
  · exact absurd hd (by omega)
  · exact ⟨rfl, rfl, rfl⟩

/-- A loaded tile with prior expiration 500 and request count 2. -/
def tileInterpEx : Tile :=
  { tileLoadedEx with expirationTime := some 500, expiredRequestCount := 2 }

/-- C4 amended witness: `T0 = 500`, `T1 = 600`, `now = 1000` on a loaded
tile with a stale request count. -/
theorem setExpiryData_interpolation_witness :
    (setExpiryData 1000 { cacheControl := none, expires := some 600 }
      tileInterpEx).expirationTime = some 31000 ∧
    (setExpiryData 1000 { cacheControl := none, expires := some 600 }
      tileInterpEx).state = TileState.loaded ∧
    (setExpiryData 1000 { cacheControl := none, expires := some 600 }
      tileInterpEx).expiredRequestCount = 0 := by
  have h := setExpiryData_interpolation tileInterpEx
    500 600 1000 rfl (by decide) (by decide) (by decide) (by decide)
  exact ⟨h.1, h.2.1, h.2.2⟩

/-- A loaded tile with prior expiration 5000 and request count 3. -/
def tileRegressEx : Tile :=
  { tileLoadedEx with expirationTime := some 5000, expiredRequestCount := 3 }

/-- C5 counterexample: prior expiration `T0 = 5000`, new expiration
`T1 = 2000 < T0`, `now = 1000`: because `T1 > now` the call takes the fresh
branch — the state stays `loaded` (not `expired`) and the counter resets to
0 instead of incrementing from 3 to 4 — the claim omits `T1 ≤ now`. -/
theorem setExpiryData_regression_counterexample :
    (2000 : Int) < 5000 ∧
    (setExpiryData 1000 { cacheControl := none, expires := some 2000 }
      tileRegressEx).state ≠ TileState.expired ∧
    (setExpiryData 1000 { cacheControl := none, expires := some 2000 }
      tileRegressEx).expiredRequestCount = 0 := by decide

/-- C5 amended: for a tile with prior recorded expiration `T0 > 0`, when the
new computed expiration `T1` satisfies `0 < T1 < T0` and is not in the
future (`T1 ≤ now`), the state becomes `expired` and `expiredRequestCount`
is exactly one greater than before. -/
theorem setExpiryData_regression (t : Tile) (T0 T1 now : Int)
    (hprior : t.expirationTime = some T0) (hpos : 0 < T0) (hT1pos : 0 < T1)
    (hle : T1 ≤ now) (hlt : T1 < T0) :
    (setExpiryData now { cacheControl := none, expires := some T1 }
      t).state = TileState.expired ∧
    (setExpiryData now { cacheControl := none, expires := some T1 }
      t).expiredRequestCount = t.expiredRequestCount + 1 := by
  have hT1 : T1 ≠ 0 := by omega
  have hT0 : T0 ≠ 0 := by omega
  simp [setExpiryData, assignExpiry, expiryUpdate, optTruthy, hprior, hT1,
    hT0, hlt, not_lt.mpr hle]

/-- C5 amended witness: `T0 = 5000`, `T1 = 900`, `now = 1000`, prior count 3. -/
theorem setExpiryData_regression_witness :
    (setExpiryData 1000 { cacheControl := none, expires := some 900 }
      tileRegressEx).state = TileState.expired ∧
    (setExpiryData 1000 { cacheControl := none, expires := some 900 }
      tileRegressEx).expiredRequestCount = 4 := by
  have h := setExpiryData_regression tileRegressEx
    5000 900 1000 rfl (by decide) (by decide) (by decide) (by decide)
  exact ⟨h.1, h.2⟩

/-- An expired tile with expiration metadata and request count `n`. -/
def tileBackoffEx (n : Nat) : Tile :=
  { tileExpiredEx with expirationTime := some 1, expiredRequestCount := n }

/-- C6 (code bug): at `expiredRequestCount = 32` the backoff expression
`1000 * (1 << Math.min(count - 1, 31))` evaluates the JS 32-bit shift
`1 << 31 = -2^31`, so `getExpiryTimeout` returns the negative value
`-2147483648000` instead of the positive `1000 * 2^31` the spec states —
a timer with a negative delay fires immediately, defeating the backoff that
the counter exists to provide (per the source's own comment on
`expiredRequestCount`). For counts 1, 2, 3 the returned values are the
stated 1000, 2000, 4000 ms, and without expiration metadata no timeout is
returned. -/
theorem getExpiryTimeout_overflow_bug :
    (getExpiryTimeout 0 (tileBackoffEx 32)) = some (-2147483648000) ∧
    (-2147483648000 : Int) < 0 ∧
    (getExpiryTimeout 0 (tileBackoffEx 1)) = some 1000 ∧
    (getExpiryTimeout 0 (tileBackoffEx 2)) = some 2000 ∧
    (getExpiryTimeout 0 (tileBackoffEx 3)) = some 4000 ∧
    (getExpiryTimeout 0 tileExpiredEx) = none := by decide

/-- Query parameters of `querySourceFeatures`: an optional source-layer name
and an optional filter. The filter value is modelled from the spec as the
predicate the external `featureFilter` compiles it to, applied to the
query zoom and a feature token. -/
structure SourceQueryParams where
  sourceLayer : Option String
  filter : Option (Nat → Nat → Bool)

/-- Modelled from the spec: `featureFilter` of the style-spec package
compiles a filter expression into a predicate; an absent filter matches
every feature. -/
def compileFilter : Option (Nat → Nat → Bool) → Nat → Nat → Bool
  | some g => g
  | none => fun _ _ => true

/-- Modelled from the spec: the external vector-tile wire-format decoder
(`new vt.VectorTile(new Protobuf(rawTileData)).layers`); raw payloads are
modelled as already-decoded named layers, so decoding is the identity. -/
def parseVectorTile (raw : VTLayers) : VTLayers := raw

/-- `querySourceFeatures(result, params)`: no-op without raw bytes; lazily
parse and cache `vtLayers`; pick `_geojsonTileLayer` or the requested source
layer; no-op if absent; otherwise append, for every feature passing the
filter at the tile's zoom, a GeoJSON-like record annotated with the tile's
(z, x, y). Returns the updated tile (the `vtLayers` cache may be filled)
and the output list. -/
def querySourceFeatures (params : Option SourceQueryParams) (t : Tile)
    (result : List GeoJSONFeature) : Tile × List GeoJSONFeature :=
  match t.rawTileData with
  | none => (t, result)
  | some raw =>
    let t1 :=
      match t.vtLayers with
      | none => { t with vtLayers := some (parseVectorTile raw) }
      | some _ => t
    let layers := t1.vtLayers.getD []
    let sl : Option String :=
      match params with
      | some p => p.sourceLayer
      | none => some ""
    let layer : Option (List Nat) :=
      match layers.find? (fun p => p.1 = "_geojsonTileLayer") with
      | some p => some p.2
      | none =>
        match sl with
        | some s => (layers.find? (fun p => p.1 = s)).map Prod.snd
        | none => none
    match layer with
    | none => (t1, result)
    | some feats =>
      let filt := compileFilter
        (match params with
         | some p => p.filter
         | none => none)
      (t1, result ++ (feats.filter (fun f => filt t.coordZ f)).map
        (fun f =>
          { feature := f, z := t.coordZ, x := t.coordX, y := t.coordY }))

/-- C10: `unloadVectorData` clears buckets, collision boxes and the feature
index but leaves `rawTileData` and the cached `vtLayers` untouched, so
`querySourceFeatures` after an unload appends exactly what it would have
appended before the unload; in particular, whenever the query appended
records before the unload it still does afterwards rather than no-oping. -/
theorem querySourceFeatures_after_unload (t : Tile)
    (params : Option SourceQueryParams) (result : List GeoJSONFeature) :
    (unloadVectorData t).1.rawTileData = t.rawTileData ∧
    (unloadVectorData t).1.vtLayers = t.vtLayers ∧
    (querySourceFeatures params (unloadVectorData t).1 result).2 =
      (querySourceFeatures params t result).2 ∧
    ((querySourceFeatures params t result).2 ≠ result →
      (querySourceFeatures params (unloadVectorData t).1 result).2 ≠ result) := by
  obtain ⟨st, bks, ii, it, gi, gt, e, c, rtd, vtl, cba, fi, m, mbb, mib, sg,
    cz, cx, cy⟩ := t
  have heq : (querySourceFeatures params
      (unloadVectorData ⟨st, bks, ii, it, gi, gt, e, c, rtd, vtl, cba, fi, m,
        mbb, mib, sg, cz, cx, cy⟩).1 result).2 =
      (querySourceFeatures params ⟨st, bks, ii, it, gi, gt, e, c, rtd, vtl,
        cba, fi, m, mbb, mib, sg, cz, cx, cy⟩ result).2 := by
    rcases rtd with _ | raw <;> rcases vtl with _ | ls <;>
      simp only [querySourceFeatures, unloadVectorData] <;> split <;> rfl
  refine ⟨rfl, rfl, heq, fun hne => ?_⟩
  rw [heq]
  exact hne

/-- A tile whose raw payload decodes to one "roads" layer with two features. -/
def tileQueryEx : Tile :=
  { tileLoadedEx with coordZ := 3, coordX := 5, coordY := 6 }

/-- Query parameters selecting the "roads" source layer with no filter. -/
def queryParamsEx : Option SourceQueryParams :=
  some { sourceLayer := some "roads", filter := none }

/-- C10 witness: on a concrete tile whose raw payload holds two "roads"
features, `querySourceFeatures` appends records before the unload, and
still appends the same records after the unload. -/
theorem querySourceFeatures_after_unload_witness :
    (querySourceFeatures queryParamsEx
      (unloadVectorData tileQueryEx).1 []).2 =
      (querySourceFeatures queryParamsEx tileQueryEx []).2 ∧
    (querySourceFeatures queryParamsEx
      (unloadVectorData tileQueryEx).1 []).2 ≠ [] := by
  have h := querySourceFeatures_after_unload tileQueryEx queryParamsEx []
  exact ⟨h.2.2.1, h.2.2.2 (by decide)⟩

/-- Modelled from the spec: `util.deepEqual` applied to two mask objects, maps
from numeric-id keys to `true` (`util` is outside the verified source): equal
key-count and every key of the first present in the second. -/
def maskDeepEqual (a b : List Nat) : Bool :=
  a.length = b.length && a.all (fun k => b.contains k)

/-- Deep equality of the tile's current `mask` field with a new mask object:
the field starts out `undefined`, which deep-equals no object. -/
def curMaskDeepEqual : Option (List Nat) → List Nat → Bool
  | none, _ => false
  | some a, b => maskDeepEqual a b

/-- `clearMask()`: destroy and delete the segments, the masked bounds buffer
and the masked index buffer, each only when present. -/
def clearMask (t : Tile) : Tile × List Effect :=
  let segFx := if t.segments.isSome then [Effect.destroySegments] else []
  let bFx :=
    if t.maskedBoundsBuffer.isSome then [Effect.destroyBoundsBuffer] else []
  let iFx :=
    if t.maskedIndexBuffer.isSome then [Effect.destroyIndexBuffer] else []
  ({ t with
      segments := none
      maskedBoundsBuffer := none
      maskedIndexBuffer := none },
   segFx ++ bFx ++ iFx)

/-- A tile coordinate: zoom and position. -/
structure TileCoord where
  z : Nat
  x : Nat
  y : Nat
deriving DecidableEq, Repr

/-- Modelled from the spec: `TileCoord.fromID` decodes the unique integer id
of a tile coordinate ("zoom/x/y encoded as a unique integer id",
`tile_coord.js` is outside the verified source) into its components. -/
def TileCoord.fromID (id : Nat) : TileCoord :=
  let z := id % 32
  let dim := 2 ^ z
  let xy := id / 32
  { z := z, x := xy % dim, y := xy / dim % dim }

/-- Modelled from the spec: the tile's fixed pixel-space extent constant
(`data/extent.js` is outside the verified source). -/
def EXTENT : Nat := 8192

/-- The four corner vertices the tessellation loop emits for one sub-region
id — top-left, top-right, bottom-left, bottom-right of the rectangle
obtained by right-shifting `EXTENT` by the sub-region's zoom — each carrying
a texture-coordinate pair duplicating its position
(`emplaceBack(x, y, x, y)`). -/
def regionVerts (id : Nat) : List MaskVtx :=
  let c := TileCoord.fromID id
  let ve := EXTENT >>> c.z
  let tlx := c.x * ve
  let tly := c.y * ve
  [(tlx, tly, tlx, tly), (tlx + ve, tly, tlx + ve, tly),
    (tlx, tly + ve, tlx, tly + ve),
    (tlx + ve, tly + ve, tlx + ve, tly + ve)]

/-- Accumulator of the tessellation loop: the shared vertex and index arrays,
the current segment (the allocator's counters; modelled from the spec, which
specifies a segment started before any sub-region is emitted and
vertex/primitive counters), and a ghost log of the per-sub-region vertex
offsets actually used for the triangle indices. -/
structure MaskBuild where
  verts : List MaskVtx
  idxs : List Tri
  seg : Segment
  offsets : List Nat
deriving DecidableEq, Repr

/-- One iteration of the tessellation loop in `setMask`: emit the
sub-region's four corner vertices, read the segment's vertex count as the
offset, emit the two triangles `(offset, offset+1, offset+2)` and
`(offset+1, offset+2, offset+3)`, and advance the segment's counters by 4
vertices and 2 primitives. -/
def emitMaskRegion (st : MaskBuild) (id : Nat) : MaskBuild :=
  let o := st.seg.vertexLength
  { verts := st.verts ++ regionVerts id
    idxs := st.idxs ++ [(o, o + 1, o + 2), (o + 1, o + 2, o + 3)]
    seg := { st.seg with
              vertexLength := o + 4
              primitiveLength := st.seg.primitiveLength + 2 }
    offsets := st.offsets ++ [o] }

/-- The accumulator after `new SegmentVector()` and the initial
`prepareSegment(0, ...)` call: empty arrays and a fresh segment. -/
def initMaskBuild : MaskBuild :=
  { verts := []
    idxs := []
    seg := { vertexOffset := 0
             primitiveOffset := 0
             vertexLength := 0
             primitiveLength := 0 }
    offsets := [] }

/-- The tessellation loop of `setMask` over the mask's sub-region ids in key
order. -/
def buildMask (mask : List Nat) : MaskBuild :=
  mask.foldl emitMaskRegion initMaskBuild

/-- `setMask(mask, gl)`: no-op when the new mask deep-equals the current one;
otherwise record the mask and release any previous mask buffers; if the new
mask is the whole-tile sentinel `{'0': true}` stop with no buffers
allocated; otherwise tessellate every sub-region and upload the arrays as
fresh vertex and index buffers. -/
def setMask (mask : List Nat) (t : Tile) : Tile × List Effect :=
  if curMaskDeepEqual t.mask mask then (t, [])
  else
    let step := clearMask { t with mask := some mask }
    if maskDeepEqual mask [0] then step
    else
      let b := buildMask mask
      ({ step.1 with
          segments := some b.seg
          maskedBoundsBuffer := some b.verts
          maskedIndexBuffer := some b.idxs },
       step.2 ++ [Effect.allocBoundsBuffer, Effect.allocIndexBuffer])

/-- C7: `setMask` with a mask deep-equal to the current one changes no field
and performs no effect (in particular no buffer allocation); with the
whole-tile sentinel (when not already applied) it releases exactly the
previously allocated mask resources and leaves segments and both mask
buffers unallocated. -/
theorem setMask_noop_and_sentinel (t : Tile) (m : List Nat) :
    (curMaskDeepEqual t.mask m = true → setMask m t = (t, [])) ∧
    (curMaskDeepEqual t.mask [0] = false →
      (setMask [0] t).1.segments = none ∧
      (setMask [0] t).1.maskedBoundsBuffer = none ∧
      (setMask [0] t).1.maskedIndexBuffer = none ∧
      Effect.allocBoundsBuffer ∉ (setMask [0] t).2 ∧
      Effect.allocIndexBuffer ∉ (setMask [0] t).2 ∧
      (Effect.destroySegments ∈ (setMask [0] t).2 ↔ t.segments.isSome) ∧
      (Effect.destroyBoundsBuffer ∈ (setMask [0] t).2 ↔
        t.maskedBoundsBuffer.isSome) ∧
      (Effect.destroyIndexBuffer ∈ (setMask [0] t).2 ↔
        t.maskedIndexBuffer.isSome)) := by
  constructor
  · intro h
    simp [setMask, h]
  · intro h
    simp only [setMask, h, Bool.false_eq_true, if_false, clearMask,
      maskDeepEqual]
    split_ifs <;> simp_all

/-- A tile with an applied two-sub-region mask and allocated mask buffers. -/
def tileMaskedEx : Tile :=
  { tileLoadedEx with
    mask := some [1, 33]
    maskedBoundsBuffer := some (buildMask [1, 33]).verts
    maskedIndexBuffer := some (buildMask [1, 33]).idxs
    segments := some (buildMask [1, 33]).seg }

/-- C7 witness: re-applying a deep-equal mask (the same two sub-region ids in
the other key order) to a concrete masked tile changes nothing, and applying
the whole-tile sentinel to that tile destroys its segments and both mask
buffers and allocates nothing. -/
theorem setMask_noop_and_sentinel_witness :
    setMask [33, 1] tileMaskedEx = (tileMaskedEx, []) ∧
    (setMask [0] tileMaskedEx).1.segments = none ∧
    (setMask [0] tileMaskedEx).1.maskedBoundsBuffer = none ∧
    (setMask [0] tileMaskedEx).1.maskedIndexBuffer = none ∧
    Effect.allocBoundsBuffer ∉ (setMask [0] tileMaskedEx).2 ∧
    Effect.destroySegments ∈ (setMask [0] tileMaskedEx).2 := by
  have h1 := (setMask_noop_and_sentinel tileMaskedEx [33, 1]).1 (by decide)
  have h2 := (setMask_noop_and_sentinel tileMaskedEx [33, 1]).2 (by decide)
  exact ⟨h1, h2.1, h2.2.1, h2.2.2.1, h2.2.2.2.1, h2.2.2.2.2.2.1.mpr
    (by decide)⟩

/-- The vertices emitted for a whole list of sub-region ids, in order. -/
def regionVertsAll : List Nat → List MaskVtx
  | [] => []
  | hd :: tl => regionVerts hd ++ regionVertsAll tl

/-- The triangles emitted for a list of sub-region ids when the segment's
vertex count is `o` before the first of them: each sub-region contributes
`(o, o+1, o+2)` and `(o+1, o+2, o+3)` and advances the count by 4. -/
def trisFrom (o : Nat) : List Nat → List Tri
  | [] => []
  | _ :: tl => (o, o + 1, o + 2) :: (o + 1, o + 2, o + 3) :: trisFrom (o + 4) tl

/-- The per-sub-region vertex offsets when the segment's vertex count is `o`
before the first sub-region. -/
def offsFrom (o : Nat) : List Nat → List Nat
  | [] => []
  | _ :: tl => o :: offsFrom (o + 4) tl

theorem foldl_emitMaskRegion (l : List Nat) (vs : List MaskVtx)
    (ts : List Tri) (vo po n pl : Nat) (os : List Nat) :
    l.foldl emitMaskRegion
      { verts := vs, idxs := ts, seg := ⟨vo, po, n, pl⟩, offsets := os } =
      { verts := vs ++ regionVertsAll l
        idxs := ts ++ trisFrom n l
        seg := ⟨vo, po, n + 4 * l.length, pl + 2 * l.length⟩
        offsets := os ++ offsFrom n l } := by
  induction l generalizing vs ts n pl os with
  | nil => simp [regionVertsAll, trisFrom, offsFrom]
  | cons hd tl ih =>
    simp only [List.foldl_cons, emitMaskRegion]
    rw [ih]
    simp only [regionVertsAll, trisFrom, offsFrom, List.append_assoc,
      List.cons_append, List.nil_append, List.singleton_append,
      List.length_cons, MaskBuild.mk.injEq, Segment.mk.injEq]
    refine ⟨trivial, trivial, ⟨trivial, trivial, ?_, ?_⟩, trivial⟩ <;> omega

theorem buildMask_eq (mask : List Nat) :
    buildMask mask =
      { verts := regionVertsAll mask
        idxs := trisFrom 0 mask
        seg := ⟨0, 0, 4 * mask.length, 2 * mask.length⟩
        offsets := offsFrom 0 mask } := by
  have h := foldl_emitMaskRegion mask [] [] 0 0 0 0 []
  simpa [buildMask, initMaskBuild] using h

theorem regionVerts_length (id : Nat) : (regionVerts id).length = 4 := rfl

theorem regionVertsAll_length (l : List Nat) :
    (regionVertsAll l).length = 4 * l.length := by
  induction l with
  | nil => simp [regionVertsAll]
  | cons hd tl ih =>
    simp only [regionVertsAll, List.length_append, regionVerts_length, ih,
      List.length_cons]
    omega

theorem trisFrom_length (o : Nat) (l : List Nat) :
    (trisFrom o l).length = 2 * l.length := by
  induction l generalizing o with
  | nil => simp [trisFrom]
  | cons hd tl ih =>
    simp only [trisFrom, List.length_cons, ih]
    omega

theorem offsFrom_get (l : List Nat) (o i : Nat) (h : i < l.length) :
    (offsFrom o l)[i]? = some (o + 4 * i) := by
  induction l generalizing o i with
  | nil => simp at h
  | cons hd tl ih =>
    cases i with
    | zero => simp [offsFrom]
    | succ j =>
      have hj : j < tl.length := by simpa using h
      simp only [offsFrom, List.getElem?_cons_succ]
      rw [ih (o + 4) j hj]
      congr 1
      omega

theorem trisFrom_get_even (l : List Nat) (o i : Nat) (h : i < l.length) :
    (trisFrom o l)[2 * i]? =
      some (o + 4 * i, o + 4 * i + 1, o + 4 * i + 2) := by
  induction l generalizing o i with
  | nil => simp at h
  | cons hd tl ih =>
    cases i with
    | zero => simp [trisFrom]
    | succ j =>
      have hj : j < tl.length := by simpa using h
      have h2 : 2 * (j + 1) = 2 * j + 1 + 1 := by omega
      simp only [trisFrom, h2, List.getElem?_cons_succ]
      rw [ih (o + 4) j hj]
      simp only [Option.some.injEq, Prod.mk.injEq]
      omega

theorem trisFrom_get_odd (l : List Nat) (o i : Nat) (h : i < l.length) :
    (trisFrom o l)[2 * i + 1]? =
      some (o + 4 * i + 1, o + 4 * i + 2, o + 4 * i + 3) := by
  induction l generalizing o i with
  | nil => simp at h
  | cons hd tl ih =>
    cases i with
    | zero => simp [trisFrom]
    | succ j =>
      have hj : j < tl.length := by simpa using h
      have h2 : 2 * (j + 1) + 1 = 2 * j + 1 + 1 + 1 := by omega
      simp only [trisFrom, h2, List.getElem?_cons_succ]
      rw [ih (o + 4) j hj]
      simp only [Option.some.injEq, Prod.mk.injEq]
      omega

theorem regionVertsAll_get (l : List Nat) (i j : Nat) (h : i < l.length)
    (hj : j < 4) :
    (regionVertsAll l)[4 * i + j]? = (regionVerts (l.get ⟨i, h⟩))[j]? := by
  induction l generalizing i with
  | nil => simp at h
  | cons hd tl ih =>
    cases i with
    | zero =>
      simp only [regionVertsAll, Nat.mul_zero, Nat.zero_add, List.get]
      exact List.getElem?_append_left (by rw [regionVerts_length]; exact hj)
    | succ k =>
      have hk : k < tl.length := by simpa using h
      have hge : (regionVerts hd).length ≤ 4 * (k + 1) + j := by
        rw [regionVerts_length]; omega
      simp only [regionVertsAll]
      rw [List.getElem?_append_right hge]
      have harith : 4 * (k + 1) + j - (regionVerts hd).length = 4 * k + j := by
        rw [regionVerts_length]; omega
      rw [harith, ih k hk]
      rfl

theorem regionVerts_dup (id : Nat) (j : Nat) (hj : j < 4) :
    ∃ px py, (regionVerts id)[j]? = some (px, py, px, py) := by
  interval_cases j <;> exact ⟨_, _, rfl⟩

/-- C8: for a non-sentinel mask not deep-equal to the current one, `setMask`
installs the tessellated arrays, which hold exactly 4 vertices and 2
triangles per sub-region; the `i`-th sub-region's vertex offset is `4*i`,
its two triangles are `(4*i, 4*i+1, 4*i+2)` and `(4*i+1, 4*i+2, 4*i+3)`
(referencing only its own 4 vertices, which sit at positions `4*i..4*i+3`),
and its 4 vertices are the corners of the rectangle obtained by
right-shifting the tile extent by the sub-region's zoom, each with a
texture-coordinate pair duplicating its position. -/
theorem setMask_tessellation (t : Tile) (mask : List Nat) (i : Nat)
    (h : i < mask.length)
    (hne : curMaskDeepEqual t.mask mask = false)
    (hsent : maskDeepEqual mask [0] = false) :
    (setMask mask t).1.maskedBoundsBuffer = some (buildMask mask).verts ∧
    (setMask mask t).1.maskedIndexBuffer = some (buildMask mask).idxs ∧
    (buildMask mask).verts.length = 4 * mask.length ∧
    (buildMask mask).idxs.length = 2 * mask.length ∧
    (buildMask mask).offsets[i]? = some (4 * i) ∧
    (buildMask mask).idxs[2 * i]? = some (4 * i, 4 * i + 1, 4 * i + 2) ∧
    (buildMask mask).idxs[2 * i + 1]? =
      some (4 * i + 1, 4 * i + 2, 4 * i + 3) ∧
    (∀ j, j < 4 → (buildMask mask).verts[4 * i + j]? =
      (regionVerts (mask.get ⟨i, h⟩))[j]?) ∧
    (∀ j, j < 4 → ∃ px py, (buildMask mask).verts[4 * i + j]? =
      some (px, py, px, py)) := by
  have hb := buildMask_eq mask
  refine ⟨?_, ?_, ?_, ?_, ?_, ?_, ?_, ?_, ?_⟩
  · simp [setMask, hne, hsent]
  · simp [setMask, hne, hsent]
  · rw [hb]; exact regionVertsAll_length mask
  · rw [hb]; exact trisFrom_length 0 mask
  · rw [hb]
    have := offsFrom_get mask 0 i h
    simpa using this
  · rw [hb]
    have := trisFrom_get_even mask 0 i h
    simpa using this
  · rw [hb]
    have := trisFrom_get_odd mask 0 i h
    simpa using this
  · intro j hj
    rw [hb]
    exact regionVertsAll_get mask i j h hj
  · intro j hj
    rw [hb]
    rw [regionVertsAll_get mask i j h hj]
    exact regionVerts_dup _ j hj

/-- C8 witness: the two-sub-region mask `{1, 33}` (both children at zoom 1)
applied to a fresh tile: region 1 (id 33, the zoom-1 child at x=1, y=0) gets
offset 4, triangles `(4,5,6)` and `(5,6,7)`, and top-left corner vertex
`(4096, 0, 4096, 0)` — `8192 >> 1` with duplicated texture coordinates. -/
theorem setMask_tessellation_witness :
    (setMask [1, 33] baseTile).1.maskedBoundsBuffer =
      some (buildMask [1, 33]).verts ∧
    (buildMask [1, 33]).verts.length = 8 ∧
    (buildMask [1, 33]).idxs.length = 4 ∧
    (buildMask [1, 33]).offsets[1]? = some 4 ∧
    (buildMask [1, 33]).idxs[2]? = some (4, 5, 6) ∧
    (buildMask [1, 33]).idxs[3]? = some (5, 6, 7) ∧
    (buildMask [1, 33]).verts[4]? = some (4096, 0, 4096, 0) := by
  have h := setMask_tessellation baseTile [1, 33] 1 (by decide) (by decide)
    (by decide)
  refine ⟨h.1, h.2.2.1, h.2.2.2.1, h.2.2.2.2.1, h.2.2.2.2.2.1,
    h.2.2.2.2.2.2.1, ?_⟩
  have hv := h.2.2.2.2.2.2.2.1 0 (by decide)
  rw [show 4 * 1 + 0 = 4 from rfl] at hv
  rw [hv]
  rfl

end TileSpec
